import Mathlib

set_option maxRecDepth 2000

/-!
# ReflexIA (v3) — Actividades: a shallow embedding of `app.py`

This file embeds the session logic of the Streamlit application `app.py`
(ReflexIA v3 activity evaluator) in Lean 4 and proves properties of it.

Modelling conventions:
* All Python strings are modelled as `List Char`; `str.strip()` is `pyStrip`,
  `str.upper()` is `pyUpper`.
* `st.session_state` is the structure `AppState`; each Streamlit script run is
  a pure function from the incoming state and the widget values of that run to
  the outgoing state plus an ordered list of `Effect`s (messages shown,
  outbound LLM calls).  Widget plumbing is out of scope: the widgets are an
  external collaborator supplying the fields of the run-input structures.
* The OpenAI client is an oracle `LLMCall → Except (List Char) (List Char)`;
  a `.error` result models a raised exception, whose message the handlers
  interpolate into their error output.
* `random.choice` is modelled by a pick function `Nat → Nat` reduced modulo
  the alphabet size.
-/

namespace Reflexia

/-- Python `str.strip()` with no argument strips leading and trailing
whitespace.  Left strip. -/
def lstripWS (l : List Char) : List Char := l.dropWhile Char.isWhitespace

/-- Right strip: drop trailing whitespace. -/
def rstripWS (l : List Char) : List Char :=
  (l.reverse.dropWhile Char.isWhitespace).reverse

/-- Python `str.strip()`: drop leading and trailing whitespace. -/
def pyStrip (l : List Char) : List Char := rstripWS (lstripWS l)

/-- Python `str.upper()` (the app only ever feeds it ASCII). -/
def pyUpper (l : List Char) : List Char := l.map Char.toUpper

/-- Python `s.split(marker, 1)[-1]`: everything after the first occurrence of
`marker`, or all of `s` when `marker` does not occur.  Auxiliary: `none` when
the marker does not occur. -/
def afterFirstAux (marker : List Char) : List Char → Option (List Char)
  | [] => if marker = [] then some [] else none
  | c :: rest =>
    if marker.isPrefixOf (c :: rest) then some ((c :: rest).drop marker.length)
    else afterFirstAux marker rest

/-- Python `s.split(marker, 1)[-1]` itself (`s` when the marker is absent, mirroring
Python's `split` returning the one-element list `[s]`). -/
def afterFirst (marker s : List Char) : List Char :=
  (afterFirstAux marker s).getD s

-- -----------------------
-- CAPTCHA (`_new_captcha_text`, session captcha state)
-- -----------------------

/-- The captcha alphabet `string.ascii_uppercase + string.digits` of
`_new_captcha_text`. -/
def captchaAlphabet : List Char := "ABCDEFGHIJKLMNOPQRSTUVWXYZ0123456789".toList

/-- The generator `_new_captcha_text(n)`: `"".join(random.choice(alphabet) for _ in range(n))`.
The random draws are supplied by `pick`, reduced modulo the alphabet size.
The source always uses the default `n = 5`. -/
def new_captcha_text (pick : Nat → Nat) (n : Nat) : List Char :=
  (List.range n).map (fun i => captchaAlphabet.getD (pick i % captchaAlphabet.length) 'A')

/-- Input mode of the activity: the `st.radio` over `["Texto", "Imagen"]`. -/
inductive Modo where
  | Texto
  | Imagen
deriving DecidableEq, Repr

/-- The relevant `st.session_state` slots of `app.py`. -/
structure AppState where
  captcha_text : List Char
  captcha_ok : Bool
  captcha_input : List Char
  reflexia_ready : Bool
  reflexia_result : List Char
  reflexia_objetivo : List Char
  reflexia_bloom : List Char
  reflexia_modo : Modo
  reflexia_model : List Char
deriving DecidableEq, Repr

/-- The callback `refresh_captcha()`: replace the code, clear the verified flag, clear the
cached input field. -/
def refresh_captcha (pick : Nat → Nat) (s : AppState) : AppState :=
  { s with
    captcha_text := new_captcha_text pick 5
    captcha_ok := false
    captcha_input := [] }

-- -----------------------
-- LLM calls and effects
-- -----------------------

/-- The `input` argument of `client.responses.create`: either a plain string,
or the one-user-message list of an `input_text` part plus an `input_image`
part. -/
inductive LLMInput where
  | text (t : List Char)
  | imageParts (txt : List Char) (image_url : List Char)
deriving DecidableEq, Repr

/-- One outbound `client.responses.create` request. -/
structure LLMCall where
  model : List Char
  instructions : List Char
  input : LLMInput
deriving DecidableEq, Repr

/-- The text part of the user message of a call. -/
def userTextOf (c : LLMCall) : List Char :=
  match c.input with
  | .text t => t
  | .imageParts t _ => t

/-- Observable effects of one script run, in order of occurrence. -/
inductive Effect where
  | errorMsg (m : List Char)
  | successMsg (m : List Char)
  | showCaptchaImage (code : List Char)
  | llmCall (c : LLMCall)
  | showResult (t : List Char)
deriving DecidableEq, Repr

/-- The LLM calls dispatched among a run's effects, in order. -/
def callsOf : List Effect → List LLMCall
  | [] => []
  | .llmCall c :: rest => c :: callsOf rest
  | _ :: rest => callsOf rest

-- -----------------------
-- `captcha_block`
-- -----------------------

/-- The verification test of `captcha_block`:
`(user_in or "").strip().upper() == st.session_state["captcha_text"]`. -/
def verifyInput (user_in : Option (List Char)) (code : List Char) : Bool :=
  decide (pyUpper (pyStrip (user_in.getD [])) = code)

/-- The gate `captcha_block()`.  `user_in` is the value of the `st.text_input` widget
(`None` modelled as `none`, guarded by `(user_in or "")` in the source);
`verificar` is whether the «Verificar CAPTCHA» button was pressed this run.
Returns the updated state, the returned boolean
(`bool(st.session_state.get("captcha_ok"))`), and the shown messages. -/
def captcha_block (s : AppState) (user_in : Option (List Char)) (verificar : Bool) :
    AppState × Bool × List Effect :=
  let s1 := { s with captcha_input := user_in.getD [] }
  if verificar then
    if verifyInput user_in s.captcha_text then
      ({ s1 with captcha_ok := true }, true,
        [.showCaptchaImage s.captcha_text, .successMsg "CAPTCHA verificado.".toList])
    else
      ({ s1 with captcha_ok := false }, false,
        [.showCaptchaImage s.captcha_text,
         .errorMsg "CAPTCHA incorrecto. Intenta de nuevo o regenera.".toList])
  else
    (s1, s.captcha_ok, [.showCaptchaImage s.captcha_text])

-- -----------------------
-- Prompt constants (opaque persona strings, transcribed from `app.py`)
-- -----------------------

/-- The evaluator persona `REFLEXIA_V3` (a raw triple-quoted string in the
source: it begins and ends with a newline). -/
def REFLEXIA_V3 : List Char := "
Rol
Eres ReflexIA, revisor crítico pedagógico.
Tu tarea es evaluar actividades formativas contrastándolas únicamente con el nivel cognitivo declarado en el objetivo de aprendizaje.

No decides a qué nivel “debería” llegar la actividad.
No propongas un nivel diferente al que declara el docente.

Entrada esperada
1) Objetivo de aprendizaje
2) Actividad (texto / imagen legible / URL pública accesible sin login)

Regla crítica
Si ReflexIA no puede leer ni acceder a la actividad real, NO evalúes ni supongas nada.
Debes: indicar que no es evaluable, describir qué insumo falta, y detener la evaluación.

Regla adicional (declaración explícita del nivel Bloom)
Si el objetivo incluye una línea con el formato:
\"Nivel Bloom declarado por el docente: <X>\"
entonces <X> es el nivel oficial a usar en toda la evaluación, incluso si el verbo del objetivo es ambiguo o no coincide.
No infieras ni sugieras otros niveles.

Procedimiento
Paso 0 — Verificación de acceso: si no puedes leer el contenido, detén la evaluación.
Paso 1 — Nivel cognitivo declarado: usa el nivel Bloom declarado explícitamente si está presente. Si no, identifica el nivel cognitivo explícito en el objetivo. No infieras intención.
Paso 2 — Proceso cognitivo activado: analiza qué proceso activa realmente la actividad observable.
Paso 3 — Evaluación de coherencia: emite un solo juicio: Coherente / Parcialmente coherente / No coherente.
Paso 4 — Fundamentación breve: máximo 3 puntos observables. Sin textos largos.
Paso 5 — Pregunta de mejora: no propongas otro nivel. Pregunta al docente cómo desea mejorar con alternativas.

Formato de salida
Si no evaluable:
Estado: No evaluable
Motivo: (frase directa)
Insumo requerido: (texto / captura específica)

Si evaluable:
1. Nivel cognitivo declarado en el objetivo:
2. Proceso cognitivo activado por la actividad:
3. Juicio de coherencia:
4. Fundamentación (máx. 3 puntos):
5. Pregunta de mejora al docente (con alternativas):

Estilo
Directo, preciso, sin ambigüedades, sin textos largos.
".toList

/-- The follow-up persona `REFLEXIA_FOLLOWUP`. -/
def REFLEXIA_FOLLOWUP : List Char := "
Eres ReflexIA. Vas a proponer un siguiente paso a partir de:
- Nivel Bloom declarado por el docente (NO lo cambies salvo que el docente lo pida explícitamente).
- Objetivo (texto) del docente
- Resultado previo de evaluación
- Decisión elegida por el docente

Reglas:
- No seas largo. Máximo 6 bullets.
- Da opciones accionables (consignas ejemplo, criterios, retroalimentación).
- Si el docente pide subir/bajar nivel, entonces sí: propone cómo reestructurar la misma actividad para ese nuevo nivel.
".toList

-- -----------------------
-- Uploads, base64, `to_data_url`
-- -----------------------

/-- A Streamlit `UploadedFile`: its binary payload (`getvalue()`, a byte
list) and its `type` attribute.  In Python an `UploadedFile` is an
`io.BytesIO` subclass and so is truthy even when its payload is empty. -/
structure UploadedFile where
  data : List Nat
  mime : Option (List Char)
deriving DecidableEq, Repr

/-- The standard base64 alphabet. -/
def base64Chars : List Char :=
  "ABCDEFGHIJKLMNOPQRSTUVWXYZabcdefghijklmnopqrstuvwxyz0123456789+/".toList

/-- Standard `base64.b64encode` on a byte list (bytes are `Nat`s below 256). -/
def base64Encode : List Nat → List Char
  | [] => []
  | [a] =>
    [base64Chars.getD (a / 4 % 64) 'A', base64Chars.getD (a % 4 * 16) 'A', '=', '=']
  | [a, b] =>
    [base64Chars.getD (a / 4 % 64) 'A', base64Chars.getD ((a % 4 * 16 + b / 16) % 64) 'A',
     base64Chars.getD (b % 16 * 4) 'A', '=']
  | a :: b :: c :: rest =>
    [base64Chars.getD (a / 4 % 64) 'A', base64Chars.getD ((a % 4 * 16 + b / 16) % 64) 'A',
     base64Chars.getD ((b % 16 * 4 + c / 64) % 64) 'A', base64Chars.getD (c % 64) 'A']
    ++ base64Encode rest

/-- The encoder `to_data_url(uploaded_file)`: note `uploaded_file.type or "image/png"`
falls back on the default both for a missing and for an empty `type`. -/
def to_data_url (f : UploadedFile) : List Char :=
  let mime := match f.mime with
    | some m => if m = [] then "image/png".toList else m
    | none => "image/png".toList
  "data:".toList ++ mime ++ ";base64,".toList ++ base64Encode f.data

-- -----------------------
-- Request builders
-- -----------------------

/-- The six Bloom levels offered by the `st.selectbox` of the form. -/
def bloomLevels : List (List Char) :=
  ["Recordar".toList, "Comprender".toList, "Aplicar".toList,
   "Analizar".toList, "Evaluar".toList, "Crear".toList]

/-- The six decision labels of the post-result `st.selectbox`. -/
def decisionLabels : List (List Char) :=
  ["Elegir 2 mejoras concretas manteniendo el nivel".toList,
   "Pedir 3 alternativas lúdicas manteniendo el nivel".toList,
   "Crear una rúbrica breve (3 criterios)".toList,
   "Redactar retroalimentación automática (1–2 líneas)".toList,
   "Subir el nivel (decisión del docente)".toList,
   "Bajar el nivel (decisión del docente)".toList]

/-- The fixed model id of the form (`model = "gpt-4o-mini"`). -/
def submit_model : List Char := "gpt-4o-mini".toList

/-- The `objetivo` f-string of the submit handler (line 233): the declared
level and the stripped objective text. -/
def objetivoHeader (bloom objetivo_texto : List Char) : List Char :=
  "Nivel Bloom declarado por el docente: ".toList ++ bloom
  ++ "\nObjetivo de aprendizaje (texto): ".toList ++ pyStrip objetivo_texto

/-- The builder `run_reflexia_text`: the outbound request it constructs (its network
round-trip is the oracle applied to this call at the call site). -/
def run_reflexia_text (model objetivo actividad : List Char) : LLMCall :=
  { model := model
    instructions := REFLEXIA_V3
    input := .text (objetivo ++ "\n\nActividad (texto):\n".toList ++ actividad) }

/-- The builder `run_reflexia_image`: the outbound request it constructs. -/
def run_reflexia_image (model objetivo image_data_url : List Char) : LLMCall :=
  { model := model
    instructions := REFLEXIA_V3
    input := .imageParts (objetivo ++ "\n\nActividad: (imagen adjunta)".toList) image_data_url }

-- -----------------------
-- Submit handler (`if submit:` block, lines 224-261)
-- -----------------------

/-- The widget values a run of the submit handler consumes.  `pick` supplies
the randomness of the `refresh_captcha()` call the handler makes. -/
structure SubmitInputs where
  modo : Modo
  bloom : List Char
  objetivo_texto : List Char
  actividad_texto : Option (List Char)
  imagen : Option UploadedFile
  captcha_typed : Option (List Char)
  verificar_clicked : Bool
  pick : Nat → Nat

/-- The captcha gate of the submit handler: `refresh_captcha()` followed by
`captcha_block()`. -/
def submitGate (s : AppState) (inp : SubmitInputs) : AppState × Bool × List Effect :=
  captcha_block (refresh_captcha inp.pick s) inp.captcha_typed inp.verificar_clicked

/-- The dispatch-and-store step of the submit handler: emit the call; on
success display the result and write the `reflexia_*` context keys
(lines 248-257); on an exception display the API error and stop (the
context keys are not written). -/
def submitDispatch (s2 : AppState) (gateEffs : List Effect) (bloom : List Char) (modo : Modo)
    (objetivo : List Char) (call : LLMCall)
    (oracle : LLMCall → Except (List Char) (List Char)) : AppState × List Effect :=
  match oracle call with
  | .ok out =>
      ({ s2 with
          reflexia_ready := true
          reflexia_result := out
          reflexia_objetivo := objetivo
          reflexia_bloom := bloom
          reflexia_modo := modo
          reflexia_model := submit_model },
       gateEffs ++ [.llmCall call, .showResult out])
  | .error e =>
      (s2, gateEffs ++ [.llmCall call, .errorMsg ("Error al llamar a la API: ".toList ++ e)])

/-- One run of the `if submit:` handler.  `st.stop()` is modelled by
returning the state and effects accumulated so far. -/
def submitRun (s : AppState) (inp : SubmitInputs)
    (oracle : LLMCall → Except (List Char) (List Char)) : AppState × List Effect :=
  if pyStrip inp.objetivo_texto = [] then
    (s, [.errorMsg "Falta el objetivo (texto).".toList])
  else
    let g := submitGate s inp
    if g.2.1 = false then (g.1, g.2.2)
    else
      let objetivo := objetivoHeader inp.bloom inp.objetivo_texto
      match inp.modo with
      | .Texto =>
        match inp.actividad_texto with
        | none => (g.1, g.2.2 ++ [.errorMsg "Falta la actividad en texto.".toList])
        | some a =>
          if pyStrip a = [] then (g.1, g.2.2 ++ [.errorMsg "Falta la actividad en texto.".toList])
          else submitDispatch g.1 g.2.2 inp.bloom inp.modo objetivo
                 (run_reflexia_text submit_model objetivo (pyStrip a)) oracle
      | .Imagen =>
        match inp.imagen with
        | none => (g.1, g.2.2 ++ [.errorMsg "No subiste ninguna imagen.".toList])
        | some f =>
          submitDispatch g.1 g.2.2 inp.bloom inp.modo objetivo
            (run_reflexia_image submit_model objetivo (to_data_url f)) oracle

-- -----------------------
-- Follow-up handler («Aplicar decisión», lines 266-323)
-- -----------------------

/-- The widget values a run of the decision section consumes. -/
structure FollowInputs where
  decision : List Char
  nivel_choice : List Char
  aplicar_clicked : Bool
  captcha_typed : Option (List Char)
  verificar_clicked : Bool

/-- The computation of `nuevo_nivel` (lines 282-290): the target-level selectbox value is taken
exactly when the decision label contains «Subir el nivel» or «Bajar el
nivel»; the selectbox always yields a value, so for those decisions the
option is populated. -/
def nuevoNivelFor (decision nivel_choice : List Char) : Option (List Char) :=
  if ("Subir el nivel".toList <:+: decision) ∨ ("Bajar el nivel".toList <:+: decision)
  then some nivel_choice else none

/-- The split marker of the stored objective header. -/
def objetivoMarker : List Char := "Objetivo de aprendizaje (texto):".toList

/-- The body of the `follow_input` f-string (lines 298-309): declared level,
objective text with the header prefix stripped, prior result, chosen
decision. -/
def followBase (bloom objetivo result decision : List Char) : List Char :=
  "\nNivel Bloom declarado por el docente: ".toList ++ bloom
  ++ "\n\nObjetivo de aprendizaje (texto):\n".toList
  ++ pyStrip (afterFirst objetivoMarker objetivo)
  ++ "\n\nResultado previo de ReflexIA:\n".toList ++ result
  ++ "\n\nDecisión del docente:\n".toList ++ decision
  ++ "\n".toList

/-- The `follow_input` message (lines 298-311): the base plus the «Nuevo
nivel Bloom» line appended when `nuevo_nivel` is truthy (a Python
`if nuevo_nivel:` — an empty string would also be falsy). -/
def follow_input (bloom objetivo result decision : List Char)
    (nuevo_nivel : Option (List Char)) : List Char :=
  match nuevo_nivel with
  | some l =>
    if l = [] then followBase bloom objetivo result decision
    else followBase bloom objetivo result decision
      ++ "\nNuevo nivel Bloom decidido por el docente: ".toList ++ l ++ "\n".toList
  | none => followBase bloom objetivo result decision

/-- The captcha gate of the follow-up handler: `captcha_block()` alone — the
follow-up does not call `refresh_captcha()`. -/
def followGate (s : AppState) (f : FollowInputs) : AppState × Bool × List Effect :=
  captcha_block s f.captcha_typed f.verificar_clicked

/-- The follow-up request (lines 315-319): stored model, follow-up persona,
and the composed `follow_input` message. -/
def followCallOf (s : AppState) (f : FollowInputs) : LLMCall :=
  { model := s.reflexia_model
    instructions := REFLEXIA_FOLLOWUP
    input := .text (follow_input s.reflexia_bloom s.reflexia_objetivo s.reflexia_result
                      f.decision (nuevoNivelFor f.decision f.nivel_choice)) }

/-- One run of the decision section.  Note: in the source, line 293
duplicates the `if st.button(\"Aplicar decisión\"):` guard of line 292,
leaving the duplicated guard with an empty block (an indentation error as
written); the handler is modelled with the single guard the surrounding code
evidently intends.  The handler never writes any session key: its only state
change is the one `captcha_block` makes. -/
def followupRun (s : AppState) (f : FollowInputs)
    (oracle : LLMCall → Except (List Char) (List Char)) : AppState × List Effect :=
  if s.reflexia_ready = false then (s, [])
  else if f.aplicar_clicked = false then (s, [])
  else
    let g := followGate s f
    if g.2.1 = false then (g.1, g.2.2)
    else
      match oracle (followCallOf s f) with
      | .ok out => (g.1, g.2.2 ++ [.llmCall (followCallOf s f), .showResult out])
      | .error e =>
        (g.1, g.2.2 ++ [.llmCall (followCallOf s f),
          .errorMsg ("Error al generar el siguiente paso: ".toList ++ e)])

-- -----------------------
-- Spec-side renderings (for refinement comparisons)
-- -----------------------

/-- Modelled from the spec's words: the objective header in the exact form
the spec states, `Declared Bloom level by the teacher: <declaredLevel>`
then `Learning objective (text): <objectiveText>` with the raw objective
text. -/
def specObjetivoHeader (declaredLevel objectiveText : List Char) : List Char :=
  "Declared Bloom level by the teacher: ".toList ++ declaredLevel
  ++ "\nLearning objective (text): ".toList ++ objectiveText

/-- The Spanish header with the raw (unstripped) objective text, for
comparison against the header the code actually builds. -/
def objetivoHeaderRaw (bloom objetivo_texto : List Char) : List Char :=
  "Nivel Bloom declarado por el docente: ".toList ++ bloom
  ++ "\nObjetivo de aprendizaje (texto): ".toList ++ objetivo_texto

/-- All characters of a list are whitespace. -/
abbrev allWS (l : List Char) : Prop := ∀ c ∈ l, c.isWhitespace = true

/-- The fixed override-line marker of the follow-up message. -/
def overrideMarker : List Char := "\nNuevo nivel Bloom decidido por el docente: ".toList

-- -----------------------
-- Concrete fixtures used by witnesses and counterexamples
-- -----------------------

/-- A deterministic pick: the fresh captcha code it yields is `ABCDE`. -/
def wPick : Nat → Nat := fun i => i

/-- A fresh session state. -/
def wState : AppState where
  captcha_text := "ZZZZZ".toList
  captcha_ok := false
  captcha_input := []
  reflexia_ready := false
  reflexia_result := []
  reflexia_objetivo := []
  reflexia_bloom := "Aplicar".toList
  reflexia_modo := Modo.Texto
  reflexia_model := []

/-- An always-succeeding LLM oracle. -/
def wOkOracle : LLMCall → Except (List Char) (List Char) := fun _ => Except.ok "RES".toList

/-- An always-failing LLM oracle. -/
def wFailOracle : LLMCall → Except (List Char) (List Char) :=
  fun _ => Except.error "boom".toList

/-- A valid text-mode submission that also solves the freshly issued
captcha. -/
def wSubmitInp : SubmitInputs where
  modo := Modo.Texto
  bloom := "Aplicar".toList
  objetivo_texto := " Usar el pasado simple ".toList
  actividad_texto := some "Crucigrama de vocabulario".toList
  imagen := none
  captcha_typed := some " abcde ".toList
  verificar_clicked := true
  pick := wPick

/-- A valid image-mode submission whose upload has an empty binary blob. -/
def wImagenInp : SubmitInputs where
  modo := Modo.Imagen
  bloom := "Aplicar".toList
  objetivo_texto := " Usar el pasado simple ".toList
  actividad_texto := none
  imagen := some { data := [], mime := some "image/png".toList }
  captcha_typed := some " abcde ".toList
  verificar_clicked := true
  pick := wPick

/-- A post-evaluation state whose captcha is already verified. -/
def wReadyState : AppState where
  captcha_text := "ABCDE".toList
  captcha_ok := true
  captcha_input := "ABCDE".toList
  reflexia_ready := true
  reflexia_result := "Resultado previo".toList
  reflexia_objetivo := objetivoHeader "Aplicar".toList " Usar el pasado simple ".toList
  reflexia_bloom := "Aplicar".toList
  reflexia_modo := Modo.Texto
  reflexia_model := submit_model

/-- A level-raise decision applied without touching the captcha widgets. -/
def wFollowInp : FollowInputs where
  decision := "Subir el nivel (decisión del docente)".toList
  nivel_choice := "Crear".toList
  aplicar_clicked := true
  captcha_typed := none
  verificar_clicked := false

/-- A level-keeping decision applied without touching the captcha widgets. -/
def wFollowKeep : FollowInputs where
  decision := "Crear una rúbrica breve (3 criterios)".toList
  nivel_choice := "Crear".toList
  aplicar_clicked := true
  captcha_typed := none
  verificar_clicked := false

/-- A placeholder call for `getD`. -/
def dummyCall : LLMCall where
  model := []
  instructions := []
  input := LLMInput.text []

/-- The evaluation call `wSubmitInp` produces. -/
def wTextCall : LLMCall :=
  run_reflexia_text submit_model
    (objetivoHeader "Aplicar".toList " Usar el pasado simple ".toList)
    (pyStrip "Crucigrama de vocabulario".toList)

/-- The evaluation call `wImagenInp` produces. -/
def wImagenCall : LLMCall :=
  run_reflexia_image submit_model
    (objetivoHeader "Aplicar".toList " Usar el pasado simple ".toList)
    (to_data_url { data := [], mime := some "image/png".toList })

/-- The follow-up call `wReadyState`/`wFollowInp` produce. -/
def wFollowCall : LLMCall := followCallOf wReadyState wFollowInp


theorem callsOf_append (a b : List Effect) :
    callsOf (a ++ b) = callsOf a ++ callsOf b := by
  induction a with
  | nil => rfl
  | cons e rest ih => cases e <;> simp [callsOf, ih]

-- -----------------------
-- Whitespace-stripping algebra
-- -----------------------

theorem dropWhile_ws_append {ws l : List Char} (h : allWS ws) :
    (ws ++ l).dropWhile Char.isWhitespace = l.dropWhile Char.isWhitespace := by
  induction ws with
  | nil => rfl
  | cons c t ih =>
    have hc : c.isWhitespace = true := h c (by simp)
    have ht : allWS t := fun x hx => h x (by simp [hx])
    simp [List.dropWhile_cons, hc, ih ht]

theorem lstripWS_ws_append {ws l : List Char} (h : allWS ws) :
    lstripWS (ws ++ l) = lstripWS l := dropWhile_ws_append h

theorem rstripWS_append_ws {ws l : List Char} (h : allWS ws) :
    rstripWS (l ++ ws) = rstripWS l := by
  unfold rstripWS
  rw [List.reverse_append, dropWhile_ws_append (fun c hc => h c (List.mem_reverse.mp hc))]

theorem pyStrip_ws_append {ws l : List Char} (h : allWS ws) :
    pyStrip (ws ++ l) = pyStrip l := by
  unfold pyStrip
  rw [lstripWS_ws_append h]

theorem lstripWS_eq_nil {l : List Char} (h : allWS l) : lstripWS l = [] :=
  List.dropWhile_eq_nil_iff.mpr h

theorem pyStrip_append_ws {ws l : List Char} (h : allWS ws) :
    pyStrip (l ++ ws) = pyStrip l := by
  unfold pyStrip lstripWS
  rw [List.dropWhile_append]
  by_cases hl : (List.dropWhile Char.isWhitespace l).isEmpty = true
  · rw [if_pos hl]
    have h1 : List.dropWhile Char.isWhitespace ws = [] := List.dropWhile_eq_nil_iff.mpr h
    have h2 : List.dropWhile Char.isWhitespace l = [] := by
      simpa using hl
    rw [h1, h2]
  · rw [if_neg hl]
    exact rstripWS_append_ws h

theorem pyStrip_pad {ws1 ws2 m : List Char} (h1 : allWS ws1) (h2 : allWS ws2) :
    pyStrip (ws1 ++ m ++ ws2) = pyStrip m := by
  rw [List.append_assoc, pyStrip_ws_append h1, pyStrip_append_ws h2]

theorem rstripWS_decomp (m : List Char) :
    m = rstripWS m ++ (m.reverse.takeWhile Char.isWhitespace).reverse := by
  unfold rstripWS
  rw [← List.reverse_append, List.takeWhile_append_dropWhile, List.reverse_reverse]

theorem pyStrip_decomp (l : List Char) :
    ∃ ws1 ws2, allWS ws1 ∧ allWS ws2 ∧ l = ws1 ++ pyStrip l ++ ws2 := by
  refine ⟨l.takeWhile Char.isWhitespace,
    ((lstripWS l).reverse.takeWhile Char.isWhitespace).reverse,
    fun c hc => List.mem_takeWhile_imp hc,
    fun c hc => List.mem_takeWhile_imp (List.mem_reverse.mp hc), ?_⟩
  conv_lhs => rw [← List.takeWhile_append_dropWhile Char.isWhitespace l]
  rw [List.append_assoc]
  congr 1
  exact rstripWS_decomp (lstripWS l)

theorem pyStrip_idem (l : List Char) : pyStrip (pyStrip l) = pyStrip l := by
  obtain ⟨ws1, ws2, h1, h2, hdec⟩ := pyStrip_decomp l
  have hp := @pyStrip_pad ws1 ws2 (pyStrip l) h1 h2
  rw [← hdec] at hp
  exact hp.symm

theorem pyUpper_eq_self {l : List Char} (h : ∀ c ∈ l, c.toUpper = c) : pyUpper l = l := by
  unfold pyUpper
  induction l with
  | nil => rfl
  | cons c t ih => simp [h c (by simp), ih (fun x hx => h x (by simp [hx]))]

theorem lstripWS_eq_self {l : List Char} (h : ∀ c ∈ l, c.isWhitespace = false) :
    lstripWS l = l := by
  unfold lstripWS
  cases l with
  | nil => rfl
  | cons c t => simp [List.dropWhile_cons, h c (by simp)]

theorem pyStrip_eq_self {l : List Char} (h : ∀ c ∈ l, c.isWhitespace = false) :
    pyStrip l = l := by
  have hrev : lstripWS l.reverse = l.reverse :=
    lstripWS_eq_self (fun c hc => h c (List.mem_reverse.mp hc))
  unfold pyStrip
  rw [lstripWS_eq_self h]
  unfold rstripWS
  rw [show List.dropWhile Char.isWhitespace l.reverse = l.reverse from hrev, List.reverse_reverse]

-- -----------------------
-- Captcha code facts
-- -----------------------

theorem new_captcha_text_length (pick : Nat → Nat) (n : Nat) :
    (new_captcha_text pick n).length = n := by
  simp [new_captcha_text]

theorem new_captcha_text_mem (pick : Nat → Nat) (n : Nat) :
    ∀ c ∈ new_captcha_text pick n, c ∈ captchaAlphabet := by
  intro c hc
  simp only [new_captcha_text, List.mem_map, List.mem_range] at hc
  obtain ⟨i, _, rfl⟩ := hc
  have hlt : pick i % captchaAlphabet.length < captchaAlphabet.length :=
    Nat.mod_lt _ (by decide)
  rw [List.getD_eq_getElem?_getD, List.getElem?_eq_getElem hlt]
  exact List.getElem_mem hlt

theorem captchaAlphabet_toUpper : ∀ c ∈ captchaAlphabet, c.toUpper = c := by decide

theorem captchaAlphabet_not_ws : ∀ c ∈ captchaAlphabet, c.isWhitespace = false := by decide

-- -----------------------
-- Structural lemmas about `captcha_block` and the two handlers
-- -----------------------

theorem captcha_block_ok_eq (s : AppState) (u : Option (List Char)) (v : Bool) :
    (captcha_block s u v).2.1 = (captcha_block s u v).1.captcha_ok := by
  unfold captcha_block
  split_ifs <;> rfl

theorem captcha_block_fields (s : AppState) (u : Option (List Char)) (v : Bool) :
    (captcha_block s u v).1.captcha_text = s.captcha_text
    ∧ (captcha_block s u v).1.reflexia_ready = s.reflexia_ready
    ∧ (captcha_block s u v).1.reflexia_result = s.reflexia_result
    ∧ (captcha_block s u v).1.reflexia_objetivo = s.reflexia_objetivo
    ∧ (captcha_block s u v).1.reflexia_bloom = s.reflexia_bloom
    ∧ (captcha_block s u v).1.reflexia_modo = s.reflexia_modo
    ∧ (captcha_block s u v).1.reflexia_model = s.reflexia_model := by
  unfold captcha_block
  split_ifs <;> exact ⟨rfl, rfl, rfl, rfl, rfl, rfl, rfl⟩

theorem callsOf_captcha_block (s : AppState) (u : Option (List Char)) (v : Bool) :
    callsOf (captcha_block s u v).2.2 = [] := by
  unfold captcha_block
  split_ifs <;> rfl

theorem captcha_block_gives_true {s : AppState} {u : Option (List Char)} {v : Bool}
    (h : (captcha_block s u v).2.1 = true) : (captcha_block s u v).1.captcha_ok = true := by
  rw [← captcha_block_ok_eq]
  exact h

theorem captcha_block_no_click (s : AppState) (u : Option (List Char)) :
    (captcha_block s u false).2.1 = s.captcha_ok
    ∧ (captcha_block s u false).1.captcha_ok = s.captcha_ok := ⟨rfl, rfl⟩

theorem callsOf_submitGate (s : AppState) (inp : SubmitInputs) :
    callsOf (submitGate s inp).2.2 = [] := callsOf_captcha_block _ _ _

theorem callsOf_followGate (s : AppState) (f : FollowInputs) :
    callsOf (followGate s f).2.2 = [] := callsOf_captcha_block _ _ _

/-- Calls made by one submit run: none at all, or exactly one dispatched with
the gate reporting verified. -/
theorem submitRun_calls (s : AppState) (inp : SubmitInputs)
    (o : LLMCall → Except (List Char) (List Char)) :
    callsOf (submitRun s inp o).2 = []
    ∨ ((submitGate s inp).2.1 = true ∧ ∃ c, callsOf (submitRun s inp o).2 = [c]) := by
  obtain ⟨modo, bloom, objt, act, img, typed, ver, pick⟩ := inp
  unfold submitRun
  try dsimp only
  split_ifs with h1 h2
  · left; rfl
  · left
    exact callsOf_captcha_block _ _ _
  · have hgt : (submitGate s ⟨modo, bloom, objt, act, img, typed, ver, pick⟩).2.1 = true := by
      revert h2
      cases (submitGate s ⟨modo, bloom, objt, act, img, typed, ver, pick⟩).2.1 <;> simp
    cases modo with
    | Texto =>
      cases act with
      | none =>
        left
        try dsimp only
        rw [callsOf_append, callsOf_submitGate]
        rfl
      | some a =>
        try dsimp only
        by_cases hs : pyStrip a = []
        · rw [if_pos hs]
          left
          rw [callsOf_append, callsOf_submitGate]
          rfl
        · rw [if_neg hs]
          refine Or.inr ⟨hgt, ?_⟩
          unfold submitDispatch
          cases o (run_reflexia_text submit_model (objetivoHeader bloom objt) (pyStrip a)) with
          | ok out =>
            exact ⟨_, by dsimp only; rw [callsOf_append, callsOf_submitGate]; rfl⟩
          | error e =>
            exact ⟨_, by dsimp only; rw [callsOf_append, callsOf_submitGate]; rfl⟩
    | Imagen =>
      cases img with
      | none =>
        left
        try dsimp only
        rw [callsOf_append, callsOf_submitGate]
        rfl
      | some fimg =>
        try dsimp only
        refine Or.inr ⟨hgt, ?_⟩
        unfold submitDispatch
        cases o (run_reflexia_image submit_model (objetivoHeader bloom objt) (to_data_url fimg)) with
        | ok out =>
          exact ⟨_, by dsimp only; rw [callsOf_append, callsOf_submitGate]; rfl⟩
        | error e =>
          exact ⟨_, by dsimp only; rw [callsOf_append, callsOf_submitGate]; rfl⟩

/-- Calls made by one follow-up run: none, or exactly the follow-up request
with the gate reporting verified. -/
theorem followupRun_calls (s : AppState) (f : FollowInputs)
    (o : LLMCall → Except (List Char) (List Char)) :
    callsOf (followupRun s f o).2 = []
    ∨ ((followGate s f).2.1 = true ∧ callsOf (followupRun s f o).2 = [followCallOf s f]) := by
  unfold followupRun
  try dsimp only
  split_ifs with h1 h2 h3
  · left; rfl
  · left; rfl
  · left
    exact callsOf_captcha_block _ _ _
  · have hgt : (followGate s f).2.1 = true := by
      revert h3
      cases (followGate s f).2.1 <;> simp
    refine Or.inr ⟨hgt, ?_⟩
    cases o (followCallOf s f) with
    | ok out => dsimp only; rw [callsOf_append, callsOf_followGate]; rfl
    | error e => dsimp only; rw [callsOf_append, callsOf_followGate]; rfl

/-- Empty (or whitespace-only) objective: the submit run reports the
validation error and stops at once. -/
theorem submitRun_empty_objective (s : AppState) (inp : SubmitInputs)
    (o : LLMCall → Except (List Char) (List Char))
    (h : pyStrip inp.objetivo_texto = []) :
    submitRun s inp o = (s, [Effect.errorMsg "Falta el objetivo (texto).".toList]) := by
  unfold submitRun
  rw [if_pos h]

/-- Gate not verified: the submit run stops with just the gate's output. -/
theorem submitRun_gate_false (s : AppState) (inp : SubmitInputs)
    (o : LLMCall → Except (List Char) (List Char))
    (h1 : pyStrip inp.objetivo_texto ≠ [])
    (hg : (submitGate s inp).2.1 = false) :
    submitRun s inp o = ((submitGate s inp).1, (submitGate s inp).2.2) := by
  unfold submitRun
  rw [if_neg h1]
  try dsimp only
  rw [if_pos hg]

/-- Text mode with a missing or whitespace-only activity: validation error
after the gate, no dispatch. -/
theorem submitRun_texto_missing (s : AppState) (inp : SubmitInputs)
    (o : LLMCall → Except (List Char) (List Char))
    (h1 : pyStrip inp.objetivo_texto ≠ [])
    (hm : inp.modo = Modo.Texto)
    (ha : inp.actividad_texto = none ∨ pyStrip (inp.actividad_texto.getD []) = [])
    (hg : (submitGate s inp).2.1 = true) :
    submitRun s inp o = ((submitGate s inp).1,
      (submitGate s inp).2.2 ++ [Effect.errorMsg "Falta la actividad en texto.".toList]) := by
  obtain ⟨modo, bloom, objt, act, img, typed, ver, pick⟩ := inp
  subst hm
  unfold submitRun
  rw [if_neg h1]
  try dsimp only
  rw [if_neg (by rw [hg]; exact fun hcontra => by cases hcontra)]
  cases act with
  | none => rfl
  | some a =>
    try dsimp only
    rcases ha with ha | ha
    · cases ha
    · dsimp only [Option.getD] at ha
      rw [if_pos ha]

/-- Text mode with a non-empty activity and verified gate: exactly the text
evaluation request is dispatched. -/
theorem submitRun_texto_dispatch (s : AppState) (inp : SubmitInputs)
    (o : LLMCall → Except (List Char) (List Char)) (a : List Char)
    (h1 : pyStrip inp.objetivo_texto ≠ [])
    (hm : inp.modo = Modo.Texto)
    (ha : inp.actividad_texto = some a)
    (hs : pyStrip a ≠ [])
    (hg : (submitGate s inp).2.1 = true) :
    callsOf (submitRun s inp o).2
      = [run_reflexia_text submit_model (objetivoHeader inp.bloom inp.objetivo_texto) (pyStrip a)] := by
  obtain ⟨modo, bloom, objt, act, img, typed, ver, pick⟩ := inp
  subst hm
  subst ha
  unfold submitRun
  rw [if_neg h1]
  try dsimp only
  rw [if_neg (by rw [hg]; exact fun hcontra => by cases hcontra)]
  try dsimp only
  rw [if_neg hs]
  unfold submitDispatch
  cases o (run_reflexia_text submit_model (objetivoHeader bloom objt) (pyStrip a)) with
  | ok out => dsimp only; rw [callsOf_append, callsOf_submitGate]; rfl
  | error e => dsimp only; rw [callsOf_append, callsOf_submitGate]; rfl

/-- Image mode with no upload: validation error after the gate, no
dispatch. -/
theorem submitRun_imagen_missing (s : AppState) (inp : SubmitInputs)
    (o : LLMCall → Except (List Char) (List Char))
    (h1 : pyStrip inp.objetivo_texto ≠ [])
    (hm : inp.modo = Modo.Imagen)
    (hi : inp.imagen = none)
    (hg : (submitGate s inp).2.1 = true) :
    submitRun s inp o = ((submitGate s inp).1,
      (submitGate s inp).2.2 ++ [Effect.errorMsg "No subiste ninguna imagen.".toList]) := by
  obtain ⟨modo, bloom, objt, act, img, typed, ver, pick⟩ := inp
  subst hm
  subst hi
  unfold submitRun
  rw [if_neg h1]
  try dsimp only
  rw [if_neg (by rw [hg]; exact fun hcontra => by cases hcontra)]

/-- Image mode with an uploaded file (of any payload, including an empty
blob) and verified gate: exactly the image evaluation request is
dispatched. -/
theorem submitRun_imagen_dispatch (s : AppState) (inp : SubmitInputs)
    (o : LLMCall → Except (List Char) (List Char)) (fimg : UploadedFile)
    (h1 : pyStrip inp.objetivo_texto ≠ [])
    (hm : inp.modo = Modo.Imagen)
    (hi : inp.imagen = some fimg)
    (hg : (submitGate s inp).2.1 = true) :
    callsOf (submitRun s inp o).2
      = [run_reflexia_image submit_model (objetivoHeader inp.bloom inp.objetivo_texto) (to_data_url fimg)] := by
  obtain ⟨modo, bloom, objt, act, img, typed, ver, pick⟩ := inp
  subst hm
  subst hi
  unfold submitRun
  rw [if_neg h1]
  try dsimp only
  rw [if_neg (by rw [hg]; exact fun hcontra => by cases hcontra)]
  unfold submitDispatch
  cases o (run_reflexia_image submit_model (objetivoHeader bloom objt) (to_data_url fimg)) with
  | ok out => dsimp only; rw [callsOf_append, callsOf_submitGate]; rfl
  | error e => dsimp only; rw [callsOf_append, callsOf_submitGate]; rfl

/-- Every call a submit run dispatches is one of the two evaluation requests
built from that run's inputs. -/
theorem submitRun_call_shape (s : AppState) (inp : SubmitInputs)
    (o : LLMCall → Except (List Char) (List Char)) :
    ∀ c ∈ callsOf (submitRun s inp o).2,
      (∃ a, inp.modo = Modo.Texto ∧ inp.actividad_texto = some a ∧
         c = run_reflexia_text submit_model (objetivoHeader inp.bloom inp.objetivo_texto) (pyStrip a))
      ∨ (∃ fimg, inp.modo = Modo.Imagen ∧ inp.imagen = some fimg ∧
         c = run_reflexia_image submit_model (objetivoHeader inp.bloom inp.objetivo_texto) (to_data_url fimg)) := by
  intro c hc
  by_cases h1 : pyStrip inp.objetivo_texto = []
  · rw [submitRun_empty_objective s inp o h1] at hc
    simp [callsOf] at hc
  · by_cases hg : (submitGate s inp).2.1 = false
    · rw [submitRun_gate_false s inp o h1 hg, callsOf_submitGate] at hc
      simp at hc
    · have hgt : (submitGate s inp).2.1 = true := by
        revert hg
        cases (submitGate s inp).2.1 <;> simp
      cases hm : inp.modo with
      | Texto =>
        cases ha : inp.actividad_texto with
        | none =>
          rw [submitRun_texto_missing s inp o h1 hm (Or.inl ha) hgt] at hc
          rw [callsOf_append, callsOf_submitGate] at hc
          simp [callsOf] at hc
        | some a =>
          by_cases hs : pyStrip a = []
          · rw [submitRun_texto_missing s inp o h1 hm (Or.inr (by rw [ha]; exact hs)) hgt] at hc
            rw [callsOf_append, callsOf_submitGate] at hc
            simp [callsOf] at hc
          · rw [submitRun_texto_dispatch s inp o a h1 hm ha hs hgt] at hc
            simp at hc
            exact Or.inl ⟨a, rfl, rfl, hc⟩
      | Imagen =>
        cases hi : inp.imagen with
        | none =>
          rw [submitRun_imagen_missing s inp o h1 hm hi hgt] at hc
          rw [callsOf_append, callsOf_submitGate] at hc
          simp [callsOf] at hc
        | some fimg =>
          rw [submitRun_imagen_dispatch s inp o fimg h1 hm hi hgt] at hc
          simp at hc
          exact Or.inr ⟨fimg, rfl, rfl, hc⟩

theorem submitDispatch_ok (s2 : AppState) (gateEffs : List Effect) (bloom : List Char)
    (modo : Modo) (objetivo : List Char) (call : LLMCall)
    (o : LLMCall → Except (List Char) (List Char)) (out : List Char)
    (ho : o call = .ok out) :
    submitDispatch s2 gateEffs bloom modo objetivo call o
      = ({ s2 with
            reflexia_ready := true
            reflexia_result := out
            reflexia_objetivo := objetivo
            reflexia_bloom := bloom
            reflexia_modo := modo
            reflexia_model := submit_model },
         gateEffs ++ [.llmCall call, .showResult out]) := by
  unfold submitDispatch
  rw [ho]

theorem submitDispatch_error (s2 : AppState) (gateEffs : List Effect) (bloom : List Char)
    (modo : Modo) (objetivo : List Char) (call : LLMCall)
    (o : LLMCall → Except (List Char) (List Char)) (e : List Char)
    (he : o call = .error e) :
    submitDispatch s2 gateEffs bloom modo objetivo call o
      = (s2, gateEffs ++ [.llmCall call, .errorMsg ("Error al llamar a la API: ".toList ++ e)]) := by
  unfold submitDispatch
  rw [he]

/-- Full equation of the text-mode dispatch branch. -/
theorem submitRun_texto_dispatch_eq (s : AppState) (inp : SubmitInputs)
    (o : LLMCall → Except (List Char) (List Char)) (a : List Char)
    (h1 : pyStrip inp.objetivo_texto ≠ [])
    (hm : inp.modo = Modo.Texto)
    (ha : inp.actividad_texto = some a)
    (hs : pyStrip a ≠ [])
    (hg : (submitGate s inp).2.1 = true) :
    submitRun s inp o
      = submitDispatch (submitGate s inp).1 (submitGate s inp).2.2 inp.bloom inp.modo
          (objetivoHeader inp.bloom inp.objetivo_texto)
          (run_reflexia_text submit_model (objetivoHeader inp.bloom inp.objetivo_texto) (pyStrip a))
          o := by
  obtain ⟨modo, bloom, objt, act, img, typed, ver, pick⟩ := inp
  subst hm
  subst ha
  unfold submitRun
  rw [if_neg h1]
  try dsimp only
  rw [if_neg (by rw [hg]; exact fun hcontra => by cases hcontra)]
  try dsimp only
  rw [if_neg hs]

/-- Full equation of the image-mode dispatch branch. -/
theorem submitRun_imagen_dispatch_eq (s : AppState) (inp : SubmitInputs)
    (o : LLMCall → Except (List Char) (List Char)) (fimg : UploadedFile)
    (h1 : pyStrip inp.objetivo_texto ≠ [])
    (hm : inp.modo = Modo.Imagen)
    (hi : inp.imagen = some fimg)
    (hg : (submitGate s inp).2.1 = true) :
    submitRun s inp o
      = submitDispatch (submitGate s inp).1 (submitGate s inp).2.2 inp.bloom inp.modo
          (objetivoHeader inp.bloom inp.objetivo_texto)
          (run_reflexia_image submit_model (objetivoHeader inp.bloom inp.objetivo_texto) (to_data_url fimg))
          o := by
  obtain ⟨modo, bloom, objt, act, img, typed, ver, pick⟩ := inp
  subst hm
  subst hi
  unfold submitRun
  rw [if_neg h1]
  try dsimp only
  rw [if_neg (by rw [hg]; exact fun hcontra => by cases hcontra)]

/-- Branch equations for the follow-up handler. -/
theorem followupRun_inactive (s : AppState) (f : FollowInputs)
    (o : LLMCall → Except (List Char) (List Char))
    (h : s.reflexia_ready = false ∨ f.aplicar_clicked = false) :
    followupRun s f o = (s, []) := by
  unfold followupRun
  rcases h with h | h
  · rw [if_pos h]
  · by_cases hr : s.reflexia_ready = false
    · rw [if_pos hr]
    · rw [if_neg hr, if_pos h]

theorem followupRun_gate_false (s : AppState) (f : FollowInputs)
    (o : LLMCall → Except (List Char) (List Char))
    (hr : s.reflexia_ready = true) (hcl : f.aplicar_clicked = true)
    (hg : (followGate s f).2.1 = false) :
    followupRun s f o = ((followGate s f).1, (followGate s f).2.2) := by
  unfold followupRun
  rw [if_neg (by rw [hr]; exact fun hcontra => by cases hcontra)]
  rw [if_neg (by rw [hcl]; exact fun hcontra => by cases hcontra)]
  try dsimp only
  rw [if_pos hg]

theorem followupRun_dispatch_ok (s : AppState) (f : FollowInputs)
    (o : LLMCall → Except (List Char) (List Char)) (out : List Char)
    (hr : s.reflexia_ready = true) (hcl : f.aplicar_clicked = true)
    (hg : (followGate s f).2.1 = true)
    (ho : o (followCallOf s f) = .ok out) :
    followupRun s f o = ((followGate s f).1,
      (followGate s f).2.2 ++ [.llmCall (followCallOf s f), .showResult out]) := by
  unfold followupRun
  rw [if_neg (by rw [hr]; exact fun hcontra => by cases hcontra)]
  rw [if_neg (by rw [hcl]; exact fun hcontra => by cases hcontra)]
  try dsimp only
  rw [if_neg (by rw [hg]; exact fun hcontra => by cases hcontra)]
  rw [ho]

theorem followupRun_dispatch_error (s : AppState) (f : FollowInputs)
    (o : LLMCall → Except (List Char) (List Char)) (e : List Char)
    (hr : s.reflexia_ready = true) (hcl : f.aplicar_clicked = true)
    (hg : (followGate s f).2.1 = true)
    (he : o (followCallOf s f) = .error e) :
    followupRun s f o = ((followGate s f).1,
      (followGate s f).2.2 ++ [.llmCall (followCallOf s f),
        .errorMsg ("Error al generar el siguiente paso: ".toList ++ e)]) := by
  unfold followupRun
  rw [if_neg (by rw [hr]; exact fun hcontra => by cases hcontra)]
  rw [if_neg (by rw [hcl]; exact fun hcontra => by cases hcontra)]
  try dsimp only
  rw [if_neg (by rw [hg]; exact fun hcontra => by cases hcontra)]
  rw [he]

/-- The gate of the submit handler preserves the stored evaluation context. -/
theorem submitGate_reflexia (s : AppState) (inp : SubmitInputs) :
    (submitGate s inp).1.reflexia_ready = s.reflexia_ready
    ∧ (submitGate s inp).1.reflexia_result = s.reflexia_result
    ∧ (submitGate s inp).1.reflexia_objetivo = s.reflexia_objetivo
    ∧ (submitGate s inp).1.reflexia_bloom = s.reflexia_bloom
    ∧ (submitGate s inp).1.reflexia_modo = s.reflexia_modo
    ∧ (submitGate s inp).1.reflexia_model = s.reflexia_model := by
  have h := captcha_block_fields (refresh_captcha inp.pick s) inp.captcha_typed inp.verificar_clicked
  exact ⟨h.2.1, h.2.2.1, h.2.2.2.1, h.2.2.2.2.1, h.2.2.2.2.2.1, h.2.2.2.2.2.2⟩

/-- The gate of the follow-up handler preserves the stored evaluation
context. -/
theorem followGate_reflexia (s : AppState) (f : FollowInputs) :
    (followGate s f).1.reflexia_ready = s.reflexia_ready
    ∧ (followGate s f).1.reflexia_result = s.reflexia_result
    ∧ (followGate s f).1.reflexia_objetivo = s.reflexia_objetivo
    ∧ (followGate s f).1.reflexia_bloom = s.reflexia_bloom
    ∧ (followGate s f).1.reflexia_modo = s.reflexia_modo
    ∧ (followGate s f).1.reflexia_model = s.reflexia_model := by
  have h := captcha_block_fields s f.captcha_typed f.verificar_clicked
  exact ⟨h.2.1, h.2.2.1, h.2.2.2.1, h.2.2.2.2.1, h.2.2.2.2.2.1, h.2.2.2.2.2.2⟩

/-- The submit gate installs a freshly generated code. -/
theorem submitGate_captcha_text (s : AppState) (inp : SubmitInputs) :
    (submitGate s inp).1.captcha_text = new_captcha_text inp.pick 5 :=
  (captcha_block_fields (refresh_captcha inp.pick s) inp.captcha_typed inp.verificar_clicked).1

/-- The follow-up gate keeps the existing code. -/
theorem followGate_captcha_text (s : AppState) (f : FollowInputs) :
    (followGate s f).1.captcha_text = s.captcha_text :=
  (captcha_block_fields s f.captcha_typed f.verificar_clicked).1

theorem submitRun_calls_le_one (s : AppState) (inp : SubmitInputs)
    (o : LLMCall → Except (List Char) (List Char)) :
    (callsOf (submitRun s inp o).2).length ≤ 1 := by
  rcases submitRun_calls s inp o with h | ⟨-, c, h⟩ <;> rw [h] <;> simp

theorem followupRun_calls_le_one (s : AppState) (f : FollowInputs)
    (o : LLMCall → Except (List Char) (List Char)) :
    (callsOf (followupRun s f o).2).length ≤ 1 := by
  rcases followupRun_calls s f o with h | ⟨-, h⟩ <;> rw [h] <;> simp

/-- If the one call of a submit run fails, the handler keeps the pre-call
state (the gate state: the `reflexia_*` context keys are not written) and
reports the API error with the underlying cause. -/
theorem submitRun_on_error (s : AppState) (inp : SubmitInputs)
    (o : LLMCall → Except (List Char) (List Char)) (call : LLMCall) (e : List Char)
    (hc : callsOf (submitRun s inp o).2 = [call]) (he : o call = .error e) :
    (submitRun s inp o).1 = (submitGate s inp).1
    ∧ Effect.errorMsg ("Error al llamar a la API: ".toList ++ e) ∈ (submitRun s inp o).2 := by
  by_cases h1 : pyStrip inp.objetivo_texto = []
  · rw [submitRun_empty_objective s inp o h1] at hc
    simp [callsOf] at hc
  · by_cases hg : (submitGate s inp).2.1 = false
    · rw [submitRun_gate_false s inp o h1 hg] at hc
      rw [show callsOf ((submitGate s inp).1, (submitGate s inp).2.2).2 = []
            from callsOf_submitGate s inp] at hc
      simp at hc
    · have hgt : (submitGate s inp).2.1 = true := by
        revert hg
        cases (submitGate s inp).2.1 <;> simp
      cases hm : inp.modo with
      | Texto =>
        cases ha : inp.actividad_texto with
        | none =>
          rw [submitRun_texto_missing s inp o h1 hm (Or.inl ha) hgt] at hc
          rw [callsOf_append, callsOf_submitGate] at hc
          simp [callsOf] at hc
        | some a =>
          by_cases hs : pyStrip a = []
          · rw [submitRun_texto_missing s inp o h1 hm (Or.inr (by rw [ha]; exact hs)) hgt] at hc
            rw [callsOf_append, callsOf_submitGate] at hc
            simp [callsOf] at hc
          · have h2 := submitRun_texto_dispatch s inp o a h1 hm ha hs hgt
            rw [hc] at h2
            have hcall : call
                = run_reflexia_text submit_model (objetivoHeader inp.bloom inp.objetivo_texto) (pyStrip a) := by
              simpa using h2
            subst hcall
            rw [submitRun_texto_dispatch_eq s inp o a h1 hm ha hs hgt,
              submitDispatch_error _ _ _ _ _ _ _ e he]
            exact ⟨rfl, by simp⟩
      | Imagen =>
        cases hi : inp.imagen with
        | none =>
          rw [submitRun_imagen_missing s inp o h1 hm hi hgt] at hc
          rw [callsOf_append, callsOf_submitGate] at hc
          simp [callsOf] at hc
        | some fimg =>
          have h2 := submitRun_imagen_dispatch s inp o fimg h1 hm hi hgt
          rw [hc] at h2
          have hcall : call
              = run_reflexia_image submit_model (objetivoHeader inp.bloom inp.objetivo_texto) (to_data_url fimg) := by
            simpa using h2
          subst hcall
          rw [submitRun_imagen_dispatch_eq s inp o fimg h1 hm hi hgt,
            submitDispatch_error _ _ _ _ _ _ _ e he]
          exact ⟨rfl, by simp⟩

/-- If the one call of a follow-up run fails, the handler keeps the pre-call
state and reports the follow-up error with the underlying cause. -/
theorem followupRun_on_error (s : AppState) (f : FollowInputs)
    (o : LLMCall → Except (List Char) (List Char)) (call : LLMCall) (e : List Char)
    (hc : callsOf (followupRun s f o).2 = [call]) (he : o call = .error e) :
    (followupRun s f o).1 = (followGate s f).1
    ∧ Effect.errorMsg ("Error al generar el siguiente paso: ".toList ++ e) ∈ (followupRun s f o).2 := by
  rcases followupRun_calls s f o with hnil | ⟨hgt, hcs⟩
  · rw [hc] at hnil
    simp at hnil
  · have hcall : call = followCallOf s f := by
      rw [hc] at hcs
      simpa using hcs
    subst hcall
    have hr : s.reflexia_ready = true := by
      by_contra hr'
      have hfalse : s.reflexia_ready = false := by
        revert hr'
        cases s.reflexia_ready <;> simp
      rw [followupRun_inactive s f o (Or.inl hfalse)] at hc
      simp [callsOf] at hc
    have hcl : f.aplicar_clicked = true := by
      by_contra hcl'
      have hfalse : f.aplicar_clicked = false := by
        revert hcl'
        cases f.aplicar_clicked <;> simp
      rw [followupRun_inactive s f o (Or.inr hfalse)] at hc
      simp [callsOf] at hc
    rw [followupRun_dispatch_error s f o e hr hcl hgt he]
    exact ⟨rfl, by simp⟩

theorem bool_eq_true_of_not_eq_false {b : Bool} (h : ¬ b = false) : b = true := by
  revert h
  cases b <;> simp

theorem submitGate_gives_true {s : AppState} {inp : SubmitInputs}
    (h : (submitGate s inp).2.1 = true) : (submitGate s inp).1.captcha_ok = true :=
  captcha_block_gives_true h

theorem followGate_gives_true {s : AppState} {f : FollowInputs}
    (h : (followGate s f).2.1 = true) : (followGate s f).1.captcha_ok = true :=
  captcha_block_gives_true h


-- -----------------------
-- Claim theorems
-- -----------------------

/-- C1: a run of either handler dispatches an LLM call only when the
session's captcha is verified in the gate state from which the dispatch
proceeds, and a run whose gate state is unverified dispatches nothing: the
action is rejected before any external call. -/
theorem llm_call_requires_verified_challenge :
    ∀ (s : AppState) (inp : SubmitInputs) (f : FollowInputs)
      (o : LLMCall → Except (List Char) (List Char)),
      (callsOf (submitRun s inp o).2 ≠ [] → (submitGate s inp).1.captcha_ok = true)
      ∧ ((submitGate s inp).1.captcha_ok = false → callsOf (submitRun s inp o).2 = [])
      ∧ (callsOf (followupRun s f o).2 ≠ [] → (followGate s f).1.captcha_ok = true)
      ∧ ((followGate s f).1.captcha_ok = false → callsOf (followupRun s f o).2 = []) := by
  intro s inp f o
  have hs := submitRun_calls s inp o
  have hf := followupRun_calls s f o
  refine ⟨?_, ?_, ?_, ?_⟩
  · intro hne
    rcases hs with h | ⟨hok, -⟩
    · exact absurd h hne
    · exact submitGate_gives_true hok
  · intro hfa
    rcases hs with h | ⟨hok, -⟩
    · exact h
    · have ht := submitGate_gives_true hok
      rw [hfa] at ht
      cases ht
  · intro hne
    rcases hf with h | ⟨hok, -⟩
    · exact absurd h hne
    · exact followGate_gives_true hok
  · intro hfa
    rcases hf with h | ⟨hok, -⟩
    · exact h
    · have ht := followGate_gives_true hok
      rw [hfa] at ht
      cases ht

/-- C1 witness: a concrete solved-gate submission does dispatch (showing the
first hypothesis satisfiable) and its gate state is verified; a concrete
unverified-gate submission dispatches nothing. -/
theorem llm_call_requires_verified_challenge_witness :
    callsOf (submitRun wState wSubmitInp wOkOracle).2 ≠ []
    ∧ (submitGate wState wSubmitInp).1.captcha_ok = true
    ∧ callsOf (followupRun wReadyState wFollowInp wOkOracle).2 ≠ []
    ∧ (followGate wReadyState wFollowInp).1.captcha_ok = true
    ∧ (submitGate wState { wSubmitInp with verificar_clicked := false }).1.captcha_ok = false
    ∧ callsOf (submitRun wState { wSubmitInp with verificar_clicked := false } wOkOracle).2 = [] :=
  ⟨by decide,
   (llm_call_requires_verified_challenge wState wSubmitInp wFollowInp wOkOracle).1 (by decide),
   by decide,
   (llm_call_requires_verified_challenge wReadyState wSubmitInp wFollowInp wOkOracle).2.2.1
     (by decide),
   by decide,
   (llm_call_requires_verified_challenge wState { wSubmitInp with verificar_clicked := false }
     wFollowInp wOkOracle).2.1 (by decide)⟩

/-- C3: a whitespace-only objective aborts the submit run with a validation
error and no dispatch; with a valid objective, a missing or whitespace-only
text activity, or a missing image upload, yields no dispatch and (once the
gate is verified, where the check is reached) the matching validation
error. -/
theorem submit_validation_aborts_before_dispatch :
    ∀ (s : AppState) (inp : SubmitInputs) (o : LLMCall → Except (List Char) (List Char)),
      (pyStrip inp.objetivo_texto = [] →
        submitRun s inp o = (s, [Effect.errorMsg "Falta el objetivo (texto).".toList])
        ∧ callsOf (submitRun s inp o).2 = [])
      ∧ (pyStrip inp.objetivo_texto ≠ [] → inp.modo = Modo.Texto →
          (inp.actividad_texto = none ∨ pyStrip (inp.actividad_texto.getD []) = []) →
          callsOf (submitRun s inp o).2 = []
          ∧ ((submitGate s inp).2.1 = true →
              Effect.errorMsg "Falta la actividad en texto.".toList ∈ (submitRun s inp o).2))
      ∧ (pyStrip inp.objetivo_texto ≠ [] → inp.modo = Modo.Imagen → inp.imagen = none →
          callsOf (submitRun s inp o).2 = []
          ∧ ((submitGate s inp).2.1 = true →
              Effect.errorMsg "No subiste ninguna imagen.".toList ∈ (submitRun s inp o).2)) := by
  intro s inp o
  refine ⟨?_, ?_, ?_⟩
  · intro h
    have he := submitRun_empty_objective s inp o h
    exact ⟨he, by rw [he]; rfl⟩
  · intro h1 hm ha
    constructor
    · by_cases hg : (submitGate s inp).2.1 = false
      · rw [submitRun_gate_false s inp o h1 hg]
        exact callsOf_submitGate s inp
      · rw [submitRun_texto_missing s inp o h1 hm ha (bool_eq_true_of_not_eq_false hg)]
        rw [callsOf_append, callsOf_submitGate]
        rfl
    · intro hgt
      rw [submitRun_texto_missing s inp o h1 hm ha hgt]
      simp
  · intro h1 hm hi
    constructor
    · by_cases hg : (submitGate s inp).2.1 = false
      · rw [submitRun_gate_false s inp o h1 hg]
        exact callsOf_submitGate s inp
      · rw [submitRun_imagen_missing s inp o h1 hm hi (bool_eq_true_of_not_eq_false hg)]
        rw [callsOf_append, callsOf_submitGate]
        rfl
    · intro hgt
      rw [submitRun_imagen_missing s inp o h1 hm hi hgt]
      simp

/-- C3 witness: the three validation failures at concrete inputs. -/
theorem submit_validation_aborts_before_dispatch_witness :
    (submitRun wState { wSubmitInp with objetivo_texto := "   ".toList } wOkOracle
       = (wState, [Effect.errorMsg "Falta el objetivo (texto).".toList]))
    ∧ callsOf (submitRun wState { wSubmitInp with actividad_texto := some "  ".toList }
        wOkOracle).2 = []
    ∧ Effect.errorMsg "Falta la actividad en texto.".toList
        ∈ (submitRun wState { wSubmitInp with actividad_texto := some "  ".toList } wOkOracle).2
    ∧ callsOf (submitRun wState
        { wSubmitInp with modo := Modo.Imagen, actividad_texto := none, imagen := none }
        wOkOracle).2 = []
    ∧ Effect.errorMsg "No subiste ninguna imagen.".toList
        ∈ (submitRun wState
            { wSubmitInp with modo := Modo.Imagen, actividad_texto := none, imagen := none }
            wOkOracle).2 :=
  ⟨((submit_validation_aborts_before_dispatch wState
      { wSubmitInp with objetivo_texto := "   ".toList } wOkOracle).1 (by decide)).1,
   ((submit_validation_aborts_before_dispatch wState
      { wSubmitInp with actividad_texto := some "  ".toList } wOkOracle).2.1
      (by decide) (by decide) (Or.inr (by decide))).1,
   ((submit_validation_aborts_before_dispatch wState
      { wSubmitInp with actividad_texto := some "  ".toList } wOkOracle).2.1
      (by decide) (by decide) (Or.inr (by decide))).2 (by decide),
   ((submit_validation_aborts_before_dispatch wState
      { wSubmitInp with modo := Modo.Imagen, actividad_texto := none, imagen := none }
      wOkOracle).2.2 (by decide) (by decide) (by decide)).1,
   ((submit_validation_aborts_before_dispatch wState
      { wSubmitInp with modo := Modo.Imagen, actividad_texto := none, imagen := none }
      wOkOracle).2.2 (by decide) (by decide) (by decide)).2 (by decide)⟩

/-- C2 counterexample: at a concrete valid request (declared level
`Aplicar`, non-empty objective) the outbound user message neither begins
with the spec's English header form nor with a header carrying the raw
(unstripped) objective text. -/
theorem evaluation_header_diverges_from_spec_form :
    (callsOf (submitRun wState wSubmitInp wOkOracle).2).length = 1
    ∧ ¬ specObjetivoHeader "Aplicar".toList " Usar el pasado simple ".toList
        <+: userTextOf ((callsOf (submitRun wState wSubmitInp wOkOracle).2).getD 0 dummyCall)
    ∧ ¬ objetivoHeaderRaw "Aplicar".toList " Usar el pasado simple ".toList
        <+: userTextOf ((callsOf (submitRun wState wSubmitInp wOkOracle).2).getD 0 dummyCall) :=
  ⟨by decide, by decide, by decide⟩

/-- C2 amended: every dispatched evaluation call begins with the Spanish
header `Nivel Bloom declarado por el docente: <declaredLevel>` + `Objetivo
de aprendizaje (texto): <objectiveText stripped>` (of which the spec's
English header is a translation), the declared level verbatim inside it,
followed by the stripped activity text or by the fixed attached-image
reference with the upload's data URL. -/
theorem evaluation_header_spanish_form :
    ∀ (s : AppState) (inp : SubmitInputs) (o : LLMCall → Except (List Char) (List Char)),
      ∀ c ∈ callsOf (submitRun s inp o).2,
        objetivoHeader inp.bloom inp.objetivo_texto <+: userTextOf c
        ∧ inp.bloom <:+: userTextOf c
        ∧ ((∃ a, inp.modo = Modo.Texto ∧ inp.actividad_texto = some a ∧
              userTextOf c = objetivoHeader inp.bloom inp.objetivo_texto
                ++ "\n\nActividad (texto):\n".toList ++ pyStrip a)
           ∨ (∃ fimg, inp.modo = Modo.Imagen ∧ inp.imagen = some fimg ∧
              userTextOf c = objetivoHeader inp.bloom inp.objetivo_texto
                ++ "\n\nActividad: (imagen adjunta)".toList
              ∧ c = run_reflexia_image submit_model
                      (objetivoHeader inp.bloom inp.objetivo_texto) (to_data_url fimg))) := by
  intro s inp o c hc
  rcases submitRun_call_shape s inp o c hc with ⟨a, hm, ha, rfl⟩ | ⟨fimg, hm, hi, rfl⟩
  · refine ⟨?_, ?_, Or.inl ⟨a, hm, ha, ?_⟩⟩
    · exact ⟨"\n\nActividad (texto):\n".toList ++ pyStrip a, by
        simp [run_reflexia_text, userTextOf, List.append_assoc]⟩
    · exact ⟨"Nivel Bloom declarado por el docente: ".toList,
        "\nObjetivo de aprendizaje (texto): ".toList ++ pyStrip inp.objetivo_texto
          ++ "\n\nActividad (texto):\n".toList ++ pyStrip a, by
        simp [run_reflexia_text, userTextOf, objetivoHeader, List.append_assoc]⟩
    · simp [run_reflexia_text, userTextOf, List.append_assoc]
  · refine ⟨?_, ?_, Or.inr ⟨fimg, hm, hi, ?_, rfl⟩⟩
    · exact ⟨"\n\nActividad: (imagen adjunta)".toList, by
        simp [run_reflexia_image, userTextOf, List.append_assoc]⟩
    · exact ⟨"Nivel Bloom declarado por el docente: ".toList,
        "\nObjetivo de aprendizaje (texto): ".toList ++ pyStrip inp.objetivo_texto
          ++ "\n\nActividad: (imagen adjunta)".toList, by
        simp [run_reflexia_image, userTextOf, objetivoHeader, List.append_assoc]⟩
    · simp [run_reflexia_image, userTextOf, List.append_assoc]

/-- C2 witness: the header-prefix property evaluated at the concrete
dispatched call. -/
theorem evaluation_header_spanish_form_witness :
    wTextCall ∈ callsOf (submitRun wState wSubmitInp wOkOracle).2
    ∧ objetivoHeader wSubmitInp.bloom wSubmitInp.objetivo_texto <+: userTextOf wTextCall :=
  ⟨by
    rw [show callsOf (submitRun wState wSubmitInp wOkOracle).2 = [wTextCall] from rfl]
    exact List.mem_cons_self wTextCall [],
   (evaluation_header_spanish_form wState wSubmitInp wOkOracle wTextCall
     (by
       rw [show callsOf (submitRun wState wSubmitInp wOkOracle).2 = [wTextCall] from rfl]
       exact List.mem_cons_self wTextCall [])).1⟩

/-- C4 amended: image-mode validation only checks the upload's presence: a
missing upload is rejected with no dispatch, while any present upload — an
empty binary blob included — is encoded into a data URL and the call is
dispatched once the gate is verified. -/
theorem image_presence_check_only :
    ∀ (s : AppState) (inp : SubmitInputs) (o : LLMCall → Except (List Char) (List Char)),
      inp.modo = Modo.Imagen → pyStrip inp.objetivo_texto ≠ [] →
      (inp.imagen = none → callsOf (submitRun s inp o).2 = [])
      ∧ (∀ fimg, inp.imagen = some fimg → (submitGate s inp).2.1 = true →
          callsOf (submitRun s inp o).2
            = [run_reflexia_image submit_model (objetivoHeader inp.bloom inp.objetivo_texto)
                 (to_data_url fimg)]) := by
  intro s inp o hm h1
  constructor
  · intro hi
    by_cases hg : (submitGate s inp).2.1 = false
    · rw [submitRun_gate_false s inp o h1 hg]
      exact callsOf_submitGate s inp
    · rw [submitRun_imagen_missing s inp o h1 hm hi (bool_eq_true_of_not_eq_false hg)]
      rw [callsOf_append, callsOf_submitGate]
      rfl
  · intro fimg hi hgt
    exact submitRun_imagen_dispatch s inp o fimg h1 hm hi hgt

/-- C4 counterexample: an image upload whose binary blob is empty is not
rejected — the evaluation call is dispatched, carrying a data URL with an
empty base64 payload. -/
theorem empty_blob_image_dispatched :
    wImagenInp.imagen = some { data := [], mime := some "image/png".toList }
    ∧ (callsOf (submitRun wState wImagenInp wOkOracle).2).length = 1
    ∧ to_data_url { data := [], mime := some "image/png".toList }
        = "data:image/png;base64,".toList :=
  ⟨rfl, by decide, by decide⟩

/-- C4 witness: the empty-blob upload dispatches its call; the missing
upload dispatches none. -/
theorem image_presence_check_only_witness :
    callsOf (submitRun wState wImagenInp wOkOracle).2
      = [run_reflexia_image submit_model
           (objetivoHeader wImagenInp.bloom wImagenInp.objetivo_texto)
           (to_data_url { data := [], mime := some "image/png".toList })]
    ∧ callsOf (submitRun wState { wImagenInp with imagen := none } wOkOracle).2 = [] :=
  ⟨(image_presence_check_only wState wImagenInp wOkOracle (by decide) (by decide)).2
     { data := [], mime := some "image/png".toList } (by decide) (by decide),
   (image_presence_check_only wState { wImagenInp with imagen := none } wOkOracle
     (by decide) (by decide)).1 (by decide)⟩

/-- C9: each run dispatches at most one call (no automatic retry); when the
one dispatched call fails, the handler reports the error with the
underlying cause and keeps the pre-call state — in particular none of the
stored `reflexia_*` context keys is overwritten. -/
theorem call_failure_reported_no_retry :
    ∀ (s : AppState) (inp : SubmitInputs) (f : FollowInputs)
      (o : LLMCall → Except (List Char) (List Char)) (call : LLMCall) (e : List Char),
      (callsOf (submitRun s inp o).2).length ≤ 1
      ∧ (callsOf (followupRun s f o).2).length ≤ 1
      ∧ (callsOf (submitRun s inp o).2 = [call] → o call = .error e →
          (submitRun s inp o).1 = (submitGate s inp).1
          ∧ (submitRun s inp o).1.reflexia_ready = s.reflexia_ready
          ∧ (submitRun s inp o).1.reflexia_result = s.reflexia_result
          ∧ (submitRun s inp o).1.reflexia_objetivo = s.reflexia_objetivo
          ∧ (submitRun s inp o).1.reflexia_bloom = s.reflexia_bloom
          ∧ (submitRun s inp o).1.reflexia_model = s.reflexia_model
          ∧ Effect.errorMsg ("Error al llamar a la API: ".toList ++ e) ∈ (submitRun s inp o).2)
      ∧ (callsOf (followupRun s f o).2 = [call] → o call = .error e →
          (followupRun s f o).1 = (followGate s f).1
          ∧ (followupRun s f o).1.reflexia_ready = s.reflexia_ready
          ∧ (followupRun s f o).1.reflexia_result = s.reflexia_result
          ∧ (followupRun s f o).1.reflexia_objetivo = s.reflexia_objetivo
          ∧ (followupRun s f o).1.reflexia_bloom = s.reflexia_bloom
          ∧ (followupRun s f o).1.reflexia_model = s.reflexia_model
          ∧ Effect.errorMsg ("Error al generar el siguiente paso: ".toList ++ e)
              ∈ (followupRun s f o).2) := by
  intro s inp f o call e
  refine ⟨submitRun_calls_le_one s inp o, followupRun_calls_le_one s f o, ?_, ?_⟩
  · intro hc he
    obtain ⟨h1, h2⟩ := submitRun_on_error s inp o call e hc he
    have hg := submitGate_reflexia s inp
    rw [h1]
    exact ⟨rfl, hg.1, hg.2.1, hg.2.2.1, hg.2.2.2.1, hg.2.2.2.2.2, h2⟩
  · intro hc he
    obtain ⟨h1, h2⟩ := followupRun_on_error s f o call e hc he
    have hg := followGate_reflexia s f
    rw [h1]
    exact ⟨rfl, hg.1, hg.2.1, hg.2.2.1, hg.2.2.2.1, hg.2.2.2.2.2, h2⟩

/-- C9 witness: both failure paths at concrete inputs with an always-failing
oracle. -/
theorem call_failure_reported_no_retry_witness :
    (submitRun wState wSubmitInp wFailOracle).1 = (submitGate wState wSubmitInp).1
    ∧ Effect.errorMsg ("Error al llamar a la API: ".toList ++ "boom".toList)
        ∈ (submitRun wState wSubmitInp wFailOracle).2
    ∧ (followupRun wReadyState wFollowInp wFailOracle).1 = (followGate wReadyState wFollowInp).1
    ∧ Effect.errorMsg ("Error al generar el siguiente paso: ".toList ++ "boom".toList)
        ∈ (followupRun wReadyState wFollowInp wFailOracle).2 :=
  ⟨((call_failure_reported_no_retry wState wSubmitInp wFollowInp wFailOracle
      wTextCall "boom".toList).2.2.1 rfl rfl).1,
   ((call_failure_reported_no_retry wState wSubmitInp wFollowInp wFailOracle
      wTextCall "boom".toList).2.2.1 rfl rfl).2.2.2.2.2.2,
   ((call_failure_reported_no_retry wReadyState wSubmitInp wFollowInp wFailOracle
      wFollowCall "boom".toList).2.2.2 rfl rfl).1,
   ((call_failure_reported_no_retry wReadyState wSubmitInp wFollowInp wFailOracle
      wFollowCall "boom".toList).2.2.2 rfl rfl).2.2.2.2.2.2⟩

/-- C5 counterexample: `verify` also accepts the correct code surrounded by
whitespace — an input that does not match the stored code up to letter case
alone. -/
theorem verify_accepts_whitespace_padded_code :
    verifyInput (some " abcde ".toList) (new_captcha_text wPick 5) = true
    ∧ pyUpper " abcde ".toList ≠ new_captcha_text wPick 5 :=
  ⟨by decide, by decide⟩

/-- C5 amended: every issued code has fixed length 5 over the
uppercase-letter/digit alphabet; `verify` accepts the stored code verbatim,
accepts any casing of it surrounded by optional whitespace, and accepts only
inputs whose stripped, uppercased form equals the stored code. -/
theorem challenge_code_format_and_verify :
    ∀ (pick : Nat → Nat),
      (new_captcha_text pick 5).length = 5
      ∧ (∀ c ∈ new_captcha_text pick 5, c ∈ captchaAlphabet)
      ∧ verifyInput (some (new_captcha_text pick 5)) (new_captcha_text pick 5) = true
      ∧ (∀ input ws1 ws2, allWS ws1 → allWS ws2 → pyStrip input = input →
          pyUpper input = new_captcha_text pick 5 →
          verifyInput (some (ws1 ++ input ++ ws2)) (new_captcha_text pick 5) = true)
      ∧ (∀ input, verifyInput (some input) (new_captcha_text pick 5) = true →
          pyUpper (pyStrip input) = new_captcha_text pick 5) := by
  intro pick
  have hmem := new_captcha_text_mem pick 5
  have hnws : ∀ c ∈ new_captcha_text pick 5, c.isWhitespace = false :=
    fun c hc => captchaAlphabet_not_ws c (hmem c hc)
  have hup : ∀ c ∈ new_captcha_text pick 5, c.toUpper = c :=
    fun c hc => captchaAlphabet_toUpper c (hmem c hc)
  refine ⟨new_captcha_text_length pick 5, hmem, ?_, ?_, ?_⟩
  · simp [verifyInput, pyStrip_eq_self hnws, pyUpper_eq_self hup]
  · intro input ws1 ws2 h1 h2 hself hupeq
    have hstr : pyStrip (ws1 ++ input ++ ws2) = input := by
      rw [pyStrip_pad h1 h2, hself]
    simp only [verifyInput, Option.getD_some]
    exact decide_eq_true (by rw [hstr]; exact hupeq)
  · intro input h
    simpa [verifyInput] using h

/-- C5 witness: the padded lowercase code is accepted, and an accepted input
normalizes to the stored code. -/
theorem challenge_code_format_and_verify_witness :
    verifyInput (some ("  ".toList ++ "abcde".toList ++ " ".toList))
      (new_captcha_text wPick 5) = true
    ∧ pyUpper (pyStrip " abcde ".toList) = new_captcha_text wPick 5 :=
  ⟨(challenge_code_format_and_verify wPick).2.2.2.1 "abcde".toList "  ".toList " ".toList
     (by decide) (by decide) (by decide) (by decide),
   (challenge_code_format_and_verify wPick).2.2.2.2 " abcde ".toList (by decide)⟩

/-- C6: a failed verification leaves the stored code unchanged, sets the
verified flag to false, and reports the fixed generic mismatch message; the
full result is characterized, so nothing else is mutated beyond the widget's
sync of the typed input field. -/
theorem failed_verify_preserves_challenge :
    ∀ (s : AppState) (u : Option (List Char)),
      verifyInput u s.captcha_text = false →
      captcha_block s u true
        = ({ s with captcha_input := u.getD [], captcha_ok := false }, false,
           [Effect.showCaptchaImage s.captcha_text,
            Effect.errorMsg "CAPTCHA incorrecto. Intenta de nuevo o regenera.".toList]) := by
  intro s u h
  unfold captcha_block
  simp [h]

/-- C6 witness: a concrete mismatched attempt against a verified-state
session. -/
theorem failed_verify_preserves_challenge_witness :
    captcha_block wReadyState (some "XXXXX".toList) true
      = ({ wReadyState with captcha_input := "XXXXX".toList, captcha_ok := false }, false,
         [Effect.showCaptchaImage wReadyState.captcha_text,
          Effect.errorMsg "CAPTCHA incorrecto. Intenta de nuevo o regenera.".toList]) :=
  failed_verify_preserves_challenge wReadyState (some "XXXXX".toList) (by decide)

/-- C7 counterexample: with the challenge already verified, two consecutive
follow-up runs each dispatch an LLM call while the stored code and the
verified flag never change — the challenge is not regenerated before the
follow-up, and one solved challenge authorizes more than one LLM
invocation. -/
theorem solved_challenge_authorizes_two_calls :
    (callsOf (followupRun wReadyState wFollowInp wOkOracle).2).length = 1
    ∧ (followupRun wReadyState wFollowInp wOkOracle).1.captcha_text = wReadyState.captcha_text
    ∧ (followupRun wReadyState wFollowInp wOkOracle).1.captcha_ok = true
    ∧ (callsOf (followupRun (followupRun wReadyState wFollowInp wOkOracle).1 wFollowInp
        wOkOracle).2).length = 1 :=
  ⟨by decide, by decide, by decide, by decide⟩

/-- C7 amended: the challenge is regenerated (fresh code, cleared flag and
input) before the evaluation action only — without a fresh verification in
the same run, a previously verified challenge never authorizes an
evaluation — while the follow-up does not regenerate: it reuses the stored
verified flag, dispatches on it, and leaves the code and flag unchanged. -/
theorem challenge_regenerated_only_for_evaluation :
    ∀ (s : AppState) (inp : SubmitInputs) (f : FollowInputs)
      (o : LLMCall → Except (List Char) (List Char)),
      (submitGate s inp).1.captcha_text = new_captcha_text inp.pick 5
      ∧ (inp.verificar_clicked = false → callsOf (submitRun s inp o).2 = [])
      ∧ (s.reflexia_ready = true → f.aplicar_clicked = true → f.verificar_clicked = false →
          s.captcha_ok = true →
          callsOf (followupRun s f o).2 = [followCallOf s f]
          ∧ (followupRun s f o).1.captcha_text = s.captcha_text
          ∧ (followupRun s f o).1.captcha_ok = true) := by
  intro s inp f o
  refine ⟨submitGate_captcha_text s inp, ?_, ?_⟩
  · intro hv
    rcases submitRun_calls s inp o with h | ⟨hok, -⟩
    · exact h
    · exfalso
      have hfalse : (submitGate s inp).2.1 = false := by
        unfold submitGate
        rw [hv]
        exact (captcha_block_no_click _ _).1
      rw [hfalse] at hok
      cases hok
  · intro hr hcl hv hok
    have hgt : (followGate s f).2.1 = true := by
      unfold followGate
      rw [hv, (captcha_block_no_click s f.captcha_typed).1]
      exact hok
    have hok1 : (followGate s f).1.captcha_ok = true := by
      unfold followGate
      rw [hv, (captcha_block_no_click s f.captcha_typed).2]
      exact hok
    refine ⟨?_, ?_, ?_⟩
    · cases ho : o (followCallOf s f) with
      | ok out =>
        rw [followupRun_dispatch_ok s f o out hr hcl hgt ho, callsOf_append, callsOf_followGate]
        rfl
      | error e =>
        rw [followupRun_dispatch_error s f o e hr hcl hgt ho, callsOf_append, callsOf_followGate]
        rfl
    · cases ho : o (followCallOf s f) with
      | ok out =>
        rw [followupRun_dispatch_ok s f o out hr hcl hgt ho]
        exact followGate_captcha_text s f
      | error e =>
        rw [followupRun_dispatch_error s f o e hr hcl hgt ho]
        exact followGate_captcha_text s f
    · cases ho : o (followCallOf s f) with
      | ok out =>
        rw [followupRun_dispatch_ok s f o out hr hcl hgt ho]
        exact hok1
      | error e =>
        rw [followupRun_dispatch_error s f o e hr hcl hgt ho]
        exact hok1

/-- C7 witness: a solved-then-reused challenge gates the follow-up at a
concrete state, and an evaluation run without a fresh verification
dispatches nothing even from a verified state. -/
theorem challenge_regenerated_only_for_evaluation_witness :
    callsOf (submitRun wReadyState { wSubmitInp with verificar_clicked := false } wOkOracle).2 = []
    ∧ callsOf (followupRun wReadyState wFollowInp wOkOracle).2
        = [followCallOf wReadyState wFollowInp]
    ∧ (followupRun wReadyState wFollowInp wOkOracle).1.captcha_ok = true :=
  ⟨(challenge_regenerated_only_for_evaluation wReadyState
      { wSubmitInp with verificar_clicked := false } wFollowInp wOkOracle).2.1 rfl,
   ((challenge_regenerated_only_for_evaluation wReadyState wSubmitInp wFollowInp
      wOkOracle).2.2 rfl rfl rfl rfl).1,
   ((challenge_regenerated_only_for_evaluation wReadyState wSubmitInp wFollowInp
      wOkOracle).2.2 rfl rfl rfl rfl).2.2⟩

/-- C10: `verify` treats a missing (`None`) input as the empty string, and
accepts an input exactly when it decomposes as optional surrounding
whitespace around a core that uppercases to the stored code. -/
theorem verify_strips_and_uppercases :
    ∀ (code input : List Char),
      verifyInput none code = verifyInput (some []) code
      ∧ (verifyInput (some input) code = true
          ↔ ∃ ws1 core ws2, input = ws1 ++ core ++ ws2 ∧ allWS ws1 ∧ allWS ws2
              ∧ pyStrip core = core ∧ pyUpper core = code) := by
  intro code input
  refine ⟨rfl, ?_, ?_⟩
  · intro h
    have h2 : pyUpper (pyStrip input) = code := by simpa [verifyInput] using h
    obtain ⟨ws1, ws2, hw1, hw2, hdec⟩ := pyStrip_decomp input
    exact ⟨ws1, pyStrip input, ws2, hdec, hw1, hw2, pyStrip_idem input, h2⟩
  · rintro ⟨ws1, core, ws2, rfl, hw1, hw2, hcore, hup⟩
    have hps : pyStrip (ws1 ++ core ++ ws2) = core := by
      rw [pyStrip_pad hw1 hw2, hcore]
    simp only [verifyInput, Option.getD_some]
    exact decide_eq_true (by rw [hps]; exact hup)

-- -----------------------
-- C8 groundwork: the override line of the follow-up message
-- -----------------------

theorem override_infix_of_line {choice msg : List Char}
    (h : (overrideMarker ++ choice ++ "\n".toList) <:+: msg) : overrideMarker <:+: msg := by
  refine List.IsInfix.trans ?_ h
  have hp : overrideMarker <+: overrideMarker ++ choice ++ "\n".toList := by
    rw [List.append_assoc]
    exact List.prefix_append overrideMarker (choice ++ "\n".toList)
  exact List.IsPrefix.isInfix hp

theorem follow_input_some (bloom objetivo result decision choice : List Char)
    (h : choice ≠ []) :
    follow_input bloom objetivo result decision (some choice)
      = followBase bloom objetivo result decision
        ++ (overrideMarker ++ choice ++ "\n".toList) := by
  unfold follow_input overrideMarker
  try dsimp only
  rw [if_neg h]
  simp [List.append_assoc]

theorem declared_level_prefix (bloom objetivo result decision : List Char) :
    ("\nNivel Bloom declarado por el docente: ".toList ++ bloom ++ "\n".toList)
      <+: followBase bloom objetivo result decision := by
  have hsplit : "\n\nObjetivo de aprendizaje (texto):\n".toList
      = "\n".toList ++ "\nObjetivo de aprendizaje (texto):\n".toList := by decide
  refine ⟨"\nObjetivo de aprendizaje (texto):\n".toList
    ++ pyStrip (afterFirst objetivoMarker objetivo)
    ++ "\n\nResultado previo de ReflexIA:\n".toList ++ result
    ++ "\n\nDecisión del docente:\n".toList ++ decision ++ "\n".toList, ?_⟩
  unfold followBase
  rw [hsplit]
  simp [List.append_assoc]

theorem nuevoNivelFor_subir (choice : List Char) :
    nuevoNivelFor "Subir el nivel (decisión del docente)".toList choice = some choice := by
  unfold nuevoNivelFor
  rw [if_pos (Or.inl (by decide))]

theorem nuevoNivelFor_bajar (choice : List Char) :
    nuevoNivelFor "Bajar el nivel (decisión del docente)".toList choice = some choice := by
  unfold nuevoNivelFor
  rw [if_pos (Or.inr (by decide))]

theorem nuevoNivelFor_keep (decision choice : List Char)
    (h : ¬(("Subir el nivel".toList <:+: decision) ∨ ("Bajar el nivel".toList <:+: decision))) :
    nuevoNivelFor decision choice = none := by
  unfold nuevoNivelFor
  rw [if_neg h]

/-- C8: for every stored context and decision among the six labels (with a
target level drawn from the six Bloom levels), the composed follow-up message
contains the override line naming the chosen target level exactly when the
decision is one of the two level-change actions, and in every case the
original declared level sits unchanged in the message's fixed header line. -/
theorem followup_override_line_iff_level_change :
    ∀ (bloom objetivo result decision choice : List Char),
      decision ∈ decisionLabels → choice ∈ bloomLevels →
      ¬ overrideMarker <:+: followBase bloom objetivo result decision →
      ((overrideMarker ++ choice ++ "\n".toList)
          <:+: follow_input bloom objetivo result decision (nuevoNivelFor decision choice)
        ↔ (decision = "Subir el nivel (decisión del docente)".toList
           ∨ decision = "Bajar el nivel (decisión del docente)".toList))
      ∧ ("\nNivel Bloom declarado por el docente: ".toList ++ bloom ++ "\n".toList)
          <+: follow_input bloom objetivo result decision (nuevoNivelFor decision choice) := by
  intro bloom objetivo result decision choice hdec hchoice hbase
  have hchoice_ne : choice ≠ [] := by
    simp only [bloomLevels, List.mem_cons, List.not_mem_nil, or_false] at hchoice
    rcases hchoice with rfl | rfl | rfl | rfl | rfl | rfl <;> decide
  have hpre := declared_level_prefix bloom objetivo result decision
  simp only [decisionLabels, List.mem_cons, List.not_mem_nil, or_false] at hdec
  rcases hdec with rfl | rfl | rfl | rfl | rfl | rfl
  · rw [nuevoNivelFor_keep _ choice (by decide)]
    exact ⟨iff_of_false (fun h => hbase (override_infix_of_line h)) (by decide), hpre⟩
  · rw [nuevoNivelFor_keep _ choice (by decide)]
    exact ⟨iff_of_false (fun h => hbase (override_infix_of_line h)) (by decide), hpre⟩
  · rw [nuevoNivelFor_keep _ choice (by decide)]
    exact ⟨iff_of_false (fun h => hbase (override_infix_of_line h)) (by decide), hpre⟩
  · rw [nuevoNivelFor_keep _ choice (by decide)]
    exact ⟨iff_of_false (fun h => hbase (override_infix_of_line h)) (by decide), hpre⟩
  · rw [nuevoNivelFor_subir choice, follow_input_some _ _ _ _ _ hchoice_ne]
    refine ⟨iff_of_true ?_ (Or.inl rfl), ?_⟩
    · exact List.IsSuffix.isInfix (List.suffix_append _ _)
    · exact hpre.trans (List.prefix_append _ _)
  · rw [nuevoNivelFor_bajar choice, follow_input_some _ _ _ _ _ hchoice_ne]
    refine ⟨iff_of_true ?_ (Or.inr rfl), ?_⟩
    · exact List.IsSuffix.isInfix (List.suffix_append _ _)
    · exact hpre.trans (List.prefix_append _ _)

/-- C8 witness: with the raise-level decision and target «Crear» at a
concrete context, the override line naming «Crear» appears and the declared
level line is a prefix of the message. -/
theorem followup_override_line_iff_level_change_witness :
    ((overrideMarker ++ "Crear".toList ++ "\n".toList)
      <:+: follow_input "Aplicar".toList [] "OK".toList
            "Subir el nivel (decisión del docente)".toList
            (nuevoNivelFor "Subir el nivel (decisión del docente)".toList "Crear".toList))
    ∧ ("\nNivel Bloom declarado por el docente: ".toList ++ "Aplicar".toList ++ "\n".toList)
        <+: follow_input "Aplicar".toList [] "OK".toList
              "Subir el nivel (decisión del docente)".toList
              (nuevoNivelFor "Subir el nivel (decisión del docente)".toList "Crear".toList) :=
  ⟨(followup_override_line_iff_level_change "Aplicar".toList [] "OK".toList
      "Subir el nivel (decisión del docente)".toList "Crear".toList
      (by decide) (by decide) (by decide)).1.mpr (Or.inl rfl),
   (followup_override_line_iff_level_change "Aplicar".toList [] "OK".toList
      "Subir el nivel (decisión del docente)".toList "Crear".toList
      (by decide) (by decide) (by decide)).2⟩

end Reflexia
